import Mathlib

/-!
# Verification of the ai-chat-support backend core

Shallow embedding, in Lean 4, of the conversation-store and reply-generator
core of the ai-chat-support repository:

* `src/backend/model/message.schema.ts` — the persisted `Message` record
  (one `Turn`: sessionId, message, reply, createdAt) and the
  express-validator chains `validateMessage` / `validateHistory`;
* `src/backend/controller/message.controller.ts` — the `userMessage` and
  `userHistory` request handlers, including the two MongoDB aggregation
  pipelines and the catch-block error classification;
* `src/backend/service/chatgpt.service.ts` — the `AI` function that
  assembles the role-message list and extracts the first completion choice.

The MongoDB collection is modelled as a `List Turn` in insertion order.
`$match` is `List.filter`, `$sort` on `createdAt` is an explicit stable
insertion sort (ascending or descending), `$limit` is `List.take`,
`$project`/`$unwind`/`$replaceRoot` on the two-element `messages` array is
a `flatMap` into the projected pairs.  The external model call and the
persistence layer are parameters of the embedded handlers: the generator is
an oracle giving the result of each successive upstream call (so that
"no retry" is expressible), and a thrown JS error is its `message` string.
-/

namespace ChatSupport

/-- One persisted `Message` document (spec: a `Turn`): `message.schema.ts`
stores `sessionId`, `message`, `reply` plus a server-assigned `createdAt`
timestamp (`timestamps: { createdAt: true, updatedAt: false }`). -/
structure Turn where
  sessionId : String
  message : String
  reply : String
  createdAt : Nat
  deriving Repr, DecidableEq

/-- A role-tagged chat message, the `ChatMessage` interface of
`chatgpt.service.ts` (`role: "user" | "assistant" | "system"`); also the
shape produced for `history` in `message.controller.ts`. -/
structure ChatMessage where
  role : String
  content : String
  deriving Repr, DecidableEq

/-- One entry of the rendered history, the `{ sender, text }` shape
projected by the `userHistory` aggregation. -/
structure HistEntry where
  sender : String
  text : String
  deriving Repr, DecidableEq

/-- Insert a turn into a list that is sorted newest-first by `createdAt`
(descending), keeping it sorted.  Together with `sortDesc` this embeds the
`$sort: { createdAt: -1 }` stage. -/
def insertDesc (t : Turn) : List Turn → List Turn
  | [] => [t]
  | u :: us => if u.createdAt ≤ t.createdAt then t :: u :: us else u :: insertDesc t us

/-- Sort a list of turns newest-first by `createdAt`:
the `$sort: { createdAt: -1 }` stage of the `userMessage` pipeline. -/
def sortDesc : List Turn → List Turn
  | [] => []
  | t :: ts => insertDesc t (sortDesc ts)

/-- Insert a turn into a list sorted oldest-first by `createdAt`
(ascending), keeping it sorted.  Together with `sortAsc` this embeds the
`$sort: { createdAt: 1 }` stage. -/
def insertAsc (t : Turn) : List Turn → List Turn
  | [] => [t]
  | u :: us => if t.createdAt ≤ u.createdAt then t :: u :: us else u :: insertAsc t us

/-- Sort a list of turns oldest-first by `createdAt`:
the `$sort: { createdAt: 1 }` stage of the `userHistory` pipeline. -/
def sortAsc : List Turn → List Turn
  | [] => []
  | t :: ts => insertAsc t (sortAsc ts)

/-- The database is chronological: `createdAt` strictly increases along the
insertion order.  This is the model of "server-assigned creation timestamp
... used as the sole ordering key" (spec §3) for the append-only log. -/
def Chronological (db : List Turn) : Prop :=
  db.Pairwise fun a b => a.createdAt < b.createdAt

instance (db : List Turn) : Decidable (Chronological db) := by
  unfold Chronological; infer_instance

/-- The history the `userMessage` handler assembles for the generator
(`message.controller.ts` lines 21–44): aggregate
`$match sessionId` / `$sort createdAt: -1` / `$limit 10` /
`$project messages: [{role: "user", content: "$message"},
{role: "assistant", content: "$reply"}]`, then
`data.flatMap(item => item.messages...)` and a final `.reverse()`. -/
def recentHistory (sessionId : String) (db : List Turn) : List ChatMessage :=
  let data := (sortDesc (db.filter fun t => t.sessionId = sessionId)).take 10
  (data.flatMap fun t =>
    [{ role := "user", content := t.message },
     { role := "assistant", content := t.reply }]).reverse

/-- The data the `userHistory` handler returns (`message.controller.ts`
lines 109–123): aggregate `$match sessionId` / `$sort createdAt: 1` /
`$project messages: [{sender: "user", text: "$message"},
{sender: "ai", text: "$reply"}]` / `$unwind` / `$replaceRoot`. -/
def historyData (sessionId : String) (db : List Turn) : List HistEntry :=
  (sortAsc (db.filter fun t => t.sessionId = sessionId)).flatMap fun t =>
    [{ sender := "user", text := t.message },
     { sender := "ai", text := t.reply }]

/-! ## Reply generator (`chatgpt.service.ts`) -/

/-- The fixed persona/policy system preamble `SYSTEM_PROMPT` of
`chatgpt.service.ts` (lines 8–76).  Its exact wording is irrelevant to
every claim; only that it is one fixed constant matters, so the constant
is abbreviated here. -/
def SYSTEM_PROMPT : String :=
  "You are a professional and empathetic customer support agent for an E-COMMERCE WEBSITE."

/-- The role coercion applied to each history entry (lines 98–104):
`role: chat.role === "assistant" ? "assistant" : "user"`, content kept. -/
def coerceRole (chat : ChatMessage) : ChatMessage :=
  { role := if chat.role = "assistant" then "assistant" else "user",
    content := chat.content }

/-- The `messages` list the `AI` function assembles (lines 92–110): the
system preamble, then the mapped history, then the new message as the
final user entry. -/
def aiMessages (message : String) (history : List ChatMessage) : List ChatMessage :=
  { role := "system", content := SYSTEM_PROMPT } ::
    (history.map coerceRole ++ [{ role := "user", content := message }])

/-- The message of one completion choice: `content` is `string | null`
in the OpenAI response. -/
structure ChoiceMessage where
  content : Option String
  deriving Repr, DecidableEq

/-- One element of `response.choices`; the optional chaining
`choices[0]?.message?` makes `message` optional. -/
structure Choice where
  message : Option ChoiceMessage
  deriving Repr, DecidableEq

/-- The chat-completion response returned by
`openai.chat.completions.create`. -/
structure ChatCompletion where
  choices : List Choice
  deriving Repr, DecidableEq

/-- `response.choices[0]?.message?.content` (line 118). -/
def firstContent (response : ChatCompletion) : Option String :=
  response.choices.head?.bind fun c => c.message.bind fun m => m.content

/-- The `AI` function (lines 88–124): assemble `aiMessages`, call the
model (here a parameter `create`, the upstream being an opaque
dependency), then return `choices[0]?.message?.content`, throwing
`"No response content from OpenAI"` when that JS value is falsy —
i.e. absent (`undefined`/`null`) or the empty string. -/
def AI (message : String) (history : List ChatMessage)
    (create : List ChatMessage → ChatCompletion) : Except String String :=
  let response := create (aiMessages message history)
  match firstContent response with
  | none => .error "No response content from OpenAI"
  | some content =>
    if content = "" then .error "No response content from OpenAI" else .ok content

/-! ## Controller (`message.controller.ts`) -/

/-- JS `String.prototype.toLowerCase` on the code points (the keywords the
controller matches are ASCII, where this agrees with JS). -/
def strToLower (s : String) : String := ⟨s.data.map Char.toLower⟩

/-- `pat` is a prefix of the second list. -/
def listPrefixOf : List Char → List Char → Bool
  | [], _ => true
  | _ :: _, [] => false
  | a :: as, b :: bs => a = b && listPrefixOf as bs

/-- `pat` occurs contiguously somewhere in the list. -/
def listInfix (pat : List Char) : List Char → Bool
  | [] => listPrefixOf pat []
  | c :: cs => listPrefixOf pat (c :: cs) || listInfix pat cs

/-- JS `String.prototype.includes`: `pat` occurs as a contiguous substring
of `s`. -/
def strIncludes (s pat : String) : Bool := listInfix pat.data s.data

/-- The response of the submit-message endpoint: `res.status(200).json({
reply, sessionId })` on success, `res.status(...).json({ msg, error })`
in the catch block. -/
inductive MsgResponse where
  | success (status : Nat) (reply : String) (sessionId : String)
  | failure (status : Nat) (msg : String) (error : String)
  deriving Repr, DecidableEq

/-- The catch-block classification of `userMessage`
(`message.controller.ts` lines 53–98): substring-match the lowercased
error message against "api key"/"authentication", then
"rate limit"/"quota", then "timeout"/"network", else a generic 500.
`e` is the caught error's `.message`. -/
def classifyError (e : String) : MsgResponse :=
  let m := strToLower e
  if strIncludes m "api key" || strIncludes m "authentication" then
    .failure 500 "Service configuration error. Please contact support."
      "Invalid API configuration"
  else if strIncludes m "rate limit" || strIncludes m "quota" then
    .failure 503 "Service is temporarily unavailable. Please try again in a moment."
      "Rate limit exceeded"
  else if strIncludes m "timeout" || strIncludes m "network" then
    .failure 504 "Request timed out. Please try again."
      "Request timeout"
  else
    .failure 500 "Sorry, I'm having trouble processing your request. Please try again later."
      "Internal server error"

/-- The `userMessage` handler (`message.controller.ts` lines 14–100).

The upstream generator is an oracle `gen`: `gen i msg hist` is the result
of the `(i+1)`-th upstream call, were one made — `Except.error e` models a
throw whose error message is `e`.  The source performs exactly one `await
AI(...)` call (no retry loop), so the handler consumes only `gen 0`.
`now` is the server-assigned `createdAt` of the `Message.create` insert;
the write itself (a single independent insert) is modelled as an append
to the log.  Returns the updated log and the HTTP response. -/
def userMessage (sessionId message : String)
    (gen : Nat → String → List ChatMessage → Except String String)
    (db : List Turn) (now : Nat) : List Turn × MsgResponse :=
  let history := recentHistory sessionId db
  match gen 0 message history with
  | .ok reply =>
    (db ++ [{ sessionId := sessionId, message := message, reply := reply,
              createdAt := now }],
     .success 200 reply sessionId)
  | .error e => (db, classifyError e)

/-- The response of the fetch-history endpoint:
`res.status(200).json({ data })` on success,
`res.status(500).json({ msg: "Internal Server Error", error })` in the
catch block — note the caught `error` value itself is placed in the body. -/
inductive HistoryResponse where
  | ok (status : Nat) (data : List HistEntry)
  | err (status : Nat) (msg : String) (error : String)
  deriving Repr, DecidableEq

/-- The `userHistory` handler (`message.controller.ts` lines 102–130).
`dbResult` is the outcome of the aggregate read: `Except.error e` models
the persistence layer throwing with detail `e`, in which case the catch
block responds 500 with `{ msg: "Internal Server Error", error }`. -/
def userHistory (sessionId : String) (dbResult : Except String (List Turn)) :
    HistoryResponse :=
  match dbResult with
  | .ok db => .ok 200 (historyData sessionId db)
  | .error e => .err 500 "Internal Server Error" e

/-! ## Validation (`message.validator.ts`, reached via `validateMessage`
in the schema/validator source, and the route wiring in
`message.route.ts`) -/

/-- JS `String.prototype.trim` on the code points: drop leading and
trailing whitespace (the express-validator `trim()` sanitizer). -/
def strTrim (s : String) : String :=
  ⟨((s.data.dropWhile Char.isWhitespace).reverse.dropWhile Char.isWhitespace).reverse⟩

/-- One express-validator chain
`.trim().notEmpty().isString().isLength({ min, max })`: the `trim`
sanitizer runs first, so `notEmpty` and `isLength` see the trimmed value.
Inputs are modelled as strings, so `isString` always passes. -/
def fieldChain (value : String) (minLen maxLen : Nat) : Bool :=
  let v := strTrim value
  !v.isEmpty && (minLen ≤ v.length && v.length ≤ maxLen)

/-- The `validateMessage` chain list (`message.schema.ts` concatenation,
lines 51–69): sessionId 1–200 chars, message 1–5000 chars, both after
trimming. -/
def validateMessage (sessionId message : String) : Bool :=
  fieldChain sessionId 1 200 && fieldChain message 1 5000

/-- The outcome of the `/chat/message` route
(`msgRoute.post("/message", validate(validateMessage), userMessage)`). -/
inductive SubmitOutcome where
  | rejected
  | handled (result : List Turn × MsgResponse)
  deriving Repr, DecidableEq

/-- Modelled from the spec: the `validate` wrapper of
`validation.middleware.ts` is not among the provided sources; per spec §7,
a `ValidationError` is "rejected before any persistence or generation
work", so the route runs the handler only when every chain passes and
otherwise rejects, leaving the log untouched. -/
def submitRoute (sessionId message : String)
    (gen : Nat → String → List ChatMessage → Except String String)
    (db : List Turn) (now : Nat) : SubmitOutcome :=
  if validateMessage sessionId message then
    .handled (userMessage sessionId message gen db now)
  else
    .rejected

/-! ## Sorting lemmas

On a chronologically ordered log (strictly increasing `createdAt`, the
server-assigned-timestamp invariant of spec §3), the descending sort is
reversal and the ascending sort is the identity. -/

theorem insertDesc_eq_append (t : Turn) : ∀ (m : List Turn),
    (∀ u ∈ m, t.createdAt < u.createdAt) → insertDesc t m = m ++ [t]
  | [], _ => rfl
  | u :: us, h => by
    have hu := h u (List.mem_cons_self u us)
    have hne : ¬ u.createdAt ≤ t.createdAt := by omega
    simp only [insertDesc, if_neg hne]
    rw [insertDesc_eq_append t us fun v hv => h v (List.mem_cons_of_mem u hv)]
    rfl

theorem sortDesc_eq_reverse : ∀ (l : List Turn), Chronological l →
    sortDesc l = l.reverse
  | [], _ => rfl
  | t :: ts, h => by
    unfold Chronological at h
    rw [List.pairwise_cons] at h
    simp only [sortDesc, List.reverse_cons]
    rw [sortDesc_eq_reverse ts h.2]
    exact insertDesc_eq_append t ts.reverse fun u hu =>
      h.1 u (List.mem_reverse.mp hu)

theorem insertAsc_eq_cons (t : Turn) (m : List Turn)
    (h : ∀ u ∈ m, t.createdAt < u.createdAt) : insertAsc t m = t :: m := by
  cases m with
  | nil => rfl
  | cons u us =>
    have hu := h u (List.mem_cons_self u us)
    have hle : t.createdAt ≤ u.createdAt := by omega
    simp only [insertAsc, if_pos hle]

theorem sortAsc_eq_self : ∀ (l : List Turn), Chronological l → sortAsc l = l
  | [], _ => rfl
  | t :: ts, h => by
    unfold Chronological at h
    rw [List.pairwise_cons] at h
    simp only [sortAsc]
    rw [sortAsc_eq_self ts h.2]
    exact insertAsc_eq_cons t ts h.1

theorem chronological_filter (p : Turn → Bool) (db : List Turn)
    (h : Chronological db) : Chronological (db.filter p) :=
  List.Pairwise.filter p h

/-- On a chronological log, `historyData` is the session's turns in log
order, each expanded into its user-then-ai pair. -/
theorem historyData_eq_flatMap (sessionId : String) (db : List Turn)
    (h : Chronological db) :
    historyData sessionId db =
      (db.filter fun t => t.sessionId = sessionId).flatMap fun t =>
        [{ sender := "user", text := t.message },
         { sender := "ai", text := t.reply }] := by
  unfold historyData
  rw [sortAsc_eq_self _ (chronological_filter _ db h)]

theorem length_flatMap_pair (f g : Turn → HistEntry) : ∀ (l : List Turn),
    (l.flatMap fun t => [f t, g t]).length = 2 * l.length
  | [] => rfl
  | t :: ts => by
    have ih := length_flatMap_pair f g ts
    simp only [List.flatMap_cons, List.length_append, List.length_cons,
      List.length_nil]
    omega

/-! ## Claims -/

/-- C1: code-bug exhibit.  The claim says that in the history assembled for
the generator each turn's stored user message immediately precedes its
stored assistant reply.  The code flatMaps the newest-first documents into
`[user, assistant]` pairs and then reverses the *flattened* list, which
restores chronological turn order but flips every pair: on a session with
two turns (q1/r1 then q2/r2) the assembled history places each assistant
reply immediately before its own user message, contradicting the claim and
the code's own comment "Reverse to get chronological order". -/
theorem c1_recent_history_flips_pair_order :
    recentHistory "s1" [⟨"s1", "q1", "r1", 1⟩, ⟨"s1", "q2", "r2", 2⟩] =
      [{ role := "assistant", content := "r1" }, { role := "user", content := "q1" },
       { role := "assistant", content := "r2" }, { role := "user", content := "q2" }] := by
  decide

/-- C2: if the generator call fails (the upstream oracle reports an error),
`userMessage` persists nothing: the log it returns is exactly the input
log, since `Message.create` is only reached after `AI` resolves
successfully. -/
theorem c2_generation_failure_persists_nothing (sessionId message e : String)
    (gen : Nat → String → List ChatMessage → Except String String)
    (db : List Turn) (now : Nat)
    (hfail : gen 0 message (recentHistory sessionId db) = Except.error e) :
    (userMessage sessionId message gen db now).1 = db := by
  simp only [userMessage, hfail]

/-- C2 witness: concrete failing generator on an empty log. -/
theorem c2_witness :
    (userMessage "s1" "hi" (fun _ _ _ => Except.error "boom") [] 0).1 = [] :=
  c2_generation_failure_persists_nothing "s1" "hi" "boom"
    (fun _ _ _ => Except.error "boom") [] 0 rfl

/-- C3: on a chronological log, fetch-history responds 200 with the
session's turns in chronological order, each expanded into a
sender-"user" entry carrying the stored message immediately followed by a
sender-"ai" entry carrying the stored reply; the result has exactly 2×N
entries for N persisted turns, and a session with zero turns yields the
empty sequence. -/
theorem c3_full_history_shape (sessionId : String) (db : List Turn)
    (h : Chronological db) :
    userHistory sessionId (Except.ok db) = HistoryResponse.ok 200
      ((db.filter fun t => t.sessionId = sessionId).flatMap fun t =>
        [{ sender := "user", text := t.message },
         { sender := "ai", text := t.reply }]) ∧
    (historyData sessionId db).length =
      2 * (db.filter fun t => t.sessionId = sessionId).length ∧
    ((db.filter fun t => t.sessionId = sessionId) = [] →
      userHistory sessionId (Except.ok db) = HistoryResponse.ok 200 []) := by
  have heq := historyData_eq_flatMap sessionId db h
  refine ⟨?_, ?_, ?_⟩
  · show HistoryResponse.ok 200 (historyData sessionId db) = _
    rw [heq]
  · rw [heq]
    exact length_flatMap_pair _ _ _
  · intro hnil
    show HistoryResponse.ok 200 (historyData sessionId db) = _
    rw [heq, hnil]
    rfl

/-- C3 witness: a two-turn session. -/
theorem c3_witness :
    userHistory "s1" (Except.ok [⟨"s1", "q1", "r1", 1⟩, ⟨"s1", "q2", "r2", 2⟩]) =
      HistoryResponse.ok 200
        ((([⟨"s1", "q1", "r1", 1⟩, ⟨"s1", "q2", "r2", 2⟩] : List Turn).filter
            fun t => t.sessionId = "s1").flatMap fun t =>
          [{ sender := "user", text := t.message },
           { sender := "ai", text := t.reply }]) :=
  (c3_full_history_shape "s1" [⟨"s1", "q1", "r1", 1⟩, ⟨"s1", "q2", "r2", 2⟩]
    (by decide)).1

/-- C4: round trip.  If the generator succeeds with `reply`, the log
`userMessage` leaves behind renders (via the fetch-history projection) to
the previous rendering followed by exactly the two entries user-`message`
then ai-`reply`. -/
theorem c4_round_trip (sessionId message reply : String)
    (gen : Nat → String → List ChatMessage → Except String String)
    (db : List Turn) (now : Nat)
    (h : Chronological db) (hnow : ∀ t ∈ db, t.createdAt < now)
    (hok : gen 0 message (recentHistory sessionId db) = Except.ok reply) :
    historyData sessionId (userMessage sessionId message gen db now).1 =
      historyData sessionId db ++
        [{ sender := "user", text := message }, { sender := "ai", text := reply }] := by
  have happ : Chronological (db ++
      [{ sessionId := sessionId, message := message, reply := reply, createdAt := now }]) := by
    unfold Chronological
    rw [List.pairwise_append]
    refine ⟨h, List.pairwise_singleton _ _, fun a ha b hb => ?_⟩
    rw [List.mem_singleton] at hb
    subst hb
    exact hnow a ha
  simp only [userMessage, hok]
  rw [historyData_eq_flatMap _ _ happ, historyData_eq_flatMap _ _ h,
    List.filter_append, List.flatMap_append]
  simp

/-- C4 witness: appending a second turn to a one-turn session. -/
theorem c4_witness :
    historyData "s1"
      (userMessage "s1" "q2" (fun _ _ _ => Except.ok "r2") [⟨"s1", "q1", "r1", 1⟩] 2).1 =
      historyData "s1" [⟨"s1", "q1", "r1", 1⟩] ++
        [{ sender := "user", text := "q2" }, { sender := "ai", text := "r2" }] :=
  c4_round_trip "s1" "q2" "r2" (fun _ _ _ => Except.ok "r2")
    [⟨"s1", "q1", "r1", 1⟩] 2 (by decide) (by decide) rfl

/-- C5: for a new message and a history of k entries, the generator
assembles exactly: the fixed system preamble first, then the k history
entries converted to user/assistant role entries in input order (entry i
of the history appears, converted, at position i+1), then the new message
as the final user entry — a list of length k+2. -/
theorem c5_prompt_assembly (message : String) (history : List ChatMessage) :
    aiMessages message history =
      { role := "system", content := SYSTEM_PROMPT } ::
        (history.map coerceRole ++ [{ role := "user", content := message }]) ∧
    (aiMessages message history).length = history.length + 2 ∧
    (aiMessages message history).getLast? =
      some { role := "user", content := message } ∧
    ∀ i, i < history.length →
      (aiMessages message history)[i + 1]? = (history[i]?).map coerceRole := by
  refine ⟨rfl, ?_, ?_, ?_⟩
  · simp [aiMessages]
  · show (({ role := "system", content := SYSTEM_PROMPT } : ChatMessage) ::
      (history.map coerceRole ++ [{ role := "user", content := message }])).getLast? = _
    rw [← List.cons_append, List.getLast?_concat]
  · intro i hi
    show (({ role := "system", content := SYSTEM_PROMPT } : ChatMessage) ::
      (history.map coerceRole ++ [{ role := "user", content := message }]))[i + 1]? = _
    rw [List.getElem?_cons_succ,
      List.getElem?_append_left (by simpa using hi), List.getElem?_map]

/-- C5 witness: a singleton history. -/
theorem c5_witness :
    (aiMessages "m" [{ role := "assistant", content := "h1" }]).length = 1 + 2 ∧
    (aiMessages "m" [{ role := "assistant", content := "h1" }])[1]? =
      (([{ role := "assistant", content := "h1" }] : List ChatMessage)[0]?).map
        coerceRole := by
  have h := c5_prompt_assembly "m" [{ role := "assistant", content := "h1" }]
  exact ⟨h.2.1, h.2.2.2 0 (by decide)⟩

/-- C10: in the assembled model-call list, every history entry whose role
is not "assistant" (including an entry tagged "system") is coerced to role
"user"; consequently the list contains exactly one system-role entry — the
fixed preamble at position 0. -/
theorem c10_single_system_entry (message : String) (history : List ChatMessage) :
    (∀ chat ∈ history, chat.role ≠ "assistant" → (coerceRole chat).role = "user") ∧
    (aiMessages message history).head? =
      some { role := "system", content := SYSTEM_PROMPT } ∧
    (aiMessages message history).countP (fun c => c.role = "system") = 1 := by
  refine ⟨?_, rfl, ?_⟩
  · intro chat _ hne
    simp [coerceRole, if_neg hne]
  · have hmap : (history.map coerceRole).countP (fun c => c.role = "system") = 0 := by
      rw [List.countP_eq_zero]
      intro a ha
      rw [List.mem_map] at ha
      obtain ⟨chat, _, rfl⟩ := ha
      by_cases hc : chat.role = "assistant" <;> simp [coerceRole, hc]
    simp [aiMessages, List.countP_cons, List.countP_append, hmap]

/-- C10 witness: a history consisting of one system-tagged entry is
coerced to user, and the assembled list still has exactly one
system-role entry. -/
theorem c10_witness :
    (coerceRole { role := "system", content := "x" }).role = "user" ∧
    (aiMessages "hi" [{ role := "system", content := "x" }]).countP
      (fun c => c.role = "system") = 1 := by
  have h := c10_single_system_entry "hi" [{ role := "system", content := "x" }]
  exact ⟨h.1 { role := "system", content := "x" } (List.mem_singleton.mpr rfl)
    (by decide), h.2.2⟩

/-- Helper: the catch-block classifier only ever produces `failure`
responses, never a `success`. -/
theorem classifyError_ne_success (e : String) (s : Nat) (r sid : String) :
    classifyError e ≠ MsgResponse.success s r sid := by
  simp only [classifyError]
  split
  · simp
  · split
    · simp
    · split <;> simp

/-- Helper: a successful `AI` result is exactly the first choice's
content, which in particular is non-empty (the JS falsy check rejects
the empty string as well as a missing one). -/
theorem AI_ok_iff_firstContent (message : String) (history : List ChatMessage)
    (create : List ChatMessage → ChatCompletion) (reply : String)
    (h : AI message history create = Except.ok reply) :
    firstContent (create (aiMessages message history)) = some reply ∧ reply ≠ "" := by
  simp only [AI] at h
  split at h
  · exact absurd h (by simp)
  · rename_i c hfc
    by_cases hc : c = ""
    · rw [if_pos hc] at h
      exact absurd h (by simp)
    · rw [if_neg hc] at h
      injection h with h'
      exact ⟨by rw [hfc, h'], h' ▸ hc⟩

/-- C8: the generator returns the first generated text segment of the
model's response and fails whenever the model returns no usable text —
absent or empty content both produce the `"No response content"` throw —
so a successful submit-message response built on `AI` always carries a
non-empty reply. -/
theorem c8_first_segment_nonempty (message : String) (history : List ChatMessage)
    (create : List ChatMessage → ChatCompletion)
    (sessionId : String) (db : List Turn) (now : Nat) :
    (∀ reply, AI message history create = Except.ok reply →
      firstContent (create (aiMessages message history)) = some reply ∧ reply ≠ "") ∧
    ((firstContent (create (aiMessages message history)) = none ∨
      firstContent (create (aiMessages message history)) = some "") →
      AI message history create = Except.error "No response content from OpenAI") ∧
    (∀ status reply sid,
      (userMessage sessionId message (fun _ msg hist => AI msg hist create) db now).2 =
        MsgResponse.success status reply sid → reply ≠ "") := by
  refine ⟨fun reply h => AI_ok_iff_firstContent message history create reply h, ?_, ?_⟩
  · intro h
    simp only [AI]
    rcases h with h | h <;> rw [h]
    rfl
  · intro status reply sid h
    simp only [userMessage] at h
    cases hai : AI message (recentHistory sessionId db) create with
    | error e =>
      rw [hai] at h
      exact absurd h (classifyError_ne_success e status reply sid)
    | ok r =>
      rw [hai] at h
      simp only [MsgResponse.success.injEq] at h
      exact h.2.1 ▸
        (AI_ok_iff_firstContent message (recentHistory sessionId db) create r hai).2

/-- C8 witness: a one-choice completion with content "Hello!" yields that
reply, and an empty-content completion fails. -/
theorem c8_witness :
    (firstContent ((fun _ => ⟨[⟨some ⟨some "Hello!"⟩⟩]⟩ : List ChatMessage → ChatCompletion)
        (aiMessages "hi" [])) = some "Hello!" ∧ "Hello!" ≠ "") ∧
    AI "hi" [] (fun _ => ⟨[⟨some ⟨some ""⟩⟩]⟩) =
      Except.error "No response content from OpenAI" := by
  have h1 := c8_first_segment_nonempty "hi" [] (fun _ => ⟨[⟨some ⟨some "Hello!"⟩⟩]⟩)
    "s1" [] 0
  have h2 := c8_first_segment_nonempty "hi" [] (fun _ => ⟨[⟨some ⟨some ""⟩⟩]⟩)
    "s1" [] 0
  exact ⟨h1.1 "Hello!" rfl, h2.2.1 (Or.inr rfl)⟩

/-- C6: on a submit-message request whose generator call throws with
message `e`, the response is the catch-block classification of `e`, and
that classification maps each upstream failure kind to its own category
with a fixed generic user-safe body: auth/config keywords to the 500
service-configuration body, otherwise quota/rate-limit keywords to the 503
transient-unavailable body, otherwise timeout/network keywords to the 504
timeout body, and anything else (including the empty-generation throw) to
the generic 500 processing body.  No automatic retry is performed: the
outcome depends only on the first upstream call's result. -/
theorem c6_error_classification (sessionId message e : String)
    (gen : Nat → String → List ChatMessage → Except String String)
    (db : List Turn) (now : Nat)
    (hfail : gen 0 message (recentHistory sessionId db) = Except.error e) :
    (userMessage sessionId message gen db now).2 = classifyError e ∧
    ((strIncludes (strToLower e) "api key" || strIncludes (strToLower e) "authentication") = true →
      classifyError e = MsgResponse.failure 500
        "Service configuration error. Please contact support."
        "Invalid API configuration") ∧
    ((strIncludes (strToLower e) "api key" || strIncludes (strToLower e) "authentication") = false →
     (strIncludes (strToLower e) "rate limit" || strIncludes (strToLower e) "quota") = true →
      classifyError e = MsgResponse.failure 503
        "Service is temporarily unavailable. Please try again in a moment."
        "Rate limit exceeded") ∧
    ((strIncludes (strToLower e) "api key" || strIncludes (strToLower e) "authentication") = false →
     (strIncludes (strToLower e) "rate limit" || strIncludes (strToLower e) "quota") = false →
     (strIncludes (strToLower e) "timeout" || strIncludes (strToLower e) "network") = true →
      classifyError e = MsgResponse.failure 504
        "Request timed out. Please try again."
        "Request timeout") ∧
    ((strIncludes (strToLower e) "api key" || strIncludes (strToLower e) "authentication") = false →
     (strIncludes (strToLower e) "rate limit" || strIncludes (strToLower e) "quota") = false →
     (strIncludes (strToLower e) "timeout" || strIncludes (strToLower e) "network") = false →
      classifyError e = MsgResponse.failure 500
        "Sorry, I'm having trouble processing your request. Please try again later."
        "Internal server error") ∧
    (∀ gen' : Nat → String → List ChatMessage → Except String String,
      gen' 0 = gen 0 →
      userMessage sessionId message gen' db now =
        userMessage sessionId message gen db now) := by
  refine ⟨by simp only [userMessage, hfail], ?_, ?_, ?_, ?_, ?_⟩
  · intro h1
    simp [classifyError, h1]
  · intro h1 h2
    simp [classifyError, h1, h2]
  · intro h1 h2 h3
    simp [classifyError, h1, h2, h3]
  · intro h1 h2 h3
    simp [classifyError, h1, h2, h3]
  · intro gen' hg
    simp only [userMessage, hg]

/-- C6 witness: a quota-exhaustion throw is classified as the 503
transient-unavailable category. -/
theorem c6_witness :
    (userMessage "s1" "hi"
        (fun _ _ _ => Except.error "You exceeded your current quota") [] 0).2 =
      classifyError "You exceeded your current quota" ∧
    classifyError "You exceeded your current quota" =
      MsgResponse.failure 503
        "Service is temporarily unavailable. Please try again in a moment."
        "Rate limit exceeded" := by
  have h := c6_error_classification "s1" "hi" "You exceeded your current quota"
    (fun _ _ _ => Except.error "You exceeded your current quota") [] 0 rfl
  exact ⟨h.1, h.2.2.1 (by decide) (by decide)⟩

/-- C7: counterexample.  The claim says the failure body never includes
the caught error's own content; but the fetch-history catch block is
`res.status(500).json({ msg: "Internal Server Error", error })`, which
places the caught error itself in the body: a persistence read failing
with a concrete detail string produces a body carrying that very string. -/
theorem c7_history_error_echoed :
    userHistory "s1"
        (Except.error "MongoNetworkError: connect ECONNREFUSED 127.0.0.1:27017") =
      HistoryResponse.err 500 "Internal Server Error"
        "MongoNetworkError: connect ECONNREFUSED 127.0.0.1:27017" ∧
    "MongoNetworkError: connect ECONNREFUSED 127.0.0.1:27017" ≠
      "Internal Server Error" := by
  exact ⟨rfl, by decide⟩

/-- C7 amended: on submit-message failures the body is one of four fixed
generic constants, none carrying the caught error's content; on a
fetch-history failure the `msg` field is the fixed generic
"Internal Server Error" but the caught error's content is echoed in the
body's `error` field. -/
theorem c7_amended_failure_bodies (sessionId message e : String)
    (gen : Nat → String → List ChatMessage → Except String String)
    (db : List Turn) (now : Nat)
    (hfail : gen 0 message (recentHistory sessionId db) = Except.error e) :
    (userMessage sessionId message gen db now).2 ∈
      [MsgResponse.failure 500 "Service configuration error. Please contact support."
        "Invalid API configuration",
       MsgResponse.failure 503
        "Service is temporarily unavailable. Please try again in a moment."
        "Rate limit exceeded",
       MsgResponse.failure 504 "Request timed out. Please try again."
        "Request timeout",
       MsgResponse.failure 500
        "Sorry, I'm having trouble processing your request. Please try again later."
        "Internal server error"] ∧
    userHistory sessionId (Except.error e) =
      HistoryResponse.err 500 "Internal Server Error" e := by
  refine ⟨?_, rfl⟩
  have h : (userMessage sessionId message gen db now).2 = classifyError e := by
    simp only [userMessage, hfail]
  rw [h]
  simp only [classifyError]
  split
  · simp
  · split
    · simp
    · split <;> simp

/-- C7 amended witness: an unclassified throw gets the generic body on
submit, and is echoed verbatim on fetch-history. -/
theorem c7_witness :
    (userMessage "s1" "hi" (fun _ _ _ => Except.error "boom detail") [] 0).2 ∈
      [MsgResponse.failure 500 "Service configuration error. Please contact support."
        "Invalid API configuration",
       MsgResponse.failure 503
        "Service is temporarily unavailable. Please try again in a moment."
        "Rate limit exceeded",
       MsgResponse.failure 504 "Request timed out. Please try again."
        "Request timeout",
       MsgResponse.failure 500
        "Sorry, I'm having trouble processing your request. Please try again later."
        "Internal server error"] ∧
    userHistory "s1" (Except.error "boom detail") =
      HistoryResponse.err 500 "Internal Server Error" "boom detail" :=
  c7_amended_failure_bodies "s1" "hi" "boom detail"
    (fun _ _ _ => Except.error "boom detail") [] 0 rfl

/-- Helper: a string of positive length is not `isEmpty`. -/
theorem isEmpty_false_of_length_pos (v : String) (hv : 1 ≤ v.length) :
    v.isEmpty = false := by
  cases hie : v.isEmpty with
  | false => rfl
  | true =>
    have hv0 : v = "" := (String.isEmpty_iff v).mp hie
    rw [hv0] at hv
    exact absurd hv (by decide)

/-- C9: counterexample.  The claim says validation accepts exactly the
requests with sessionId length 1–200 and message length 1–5000; but the
chains run `.trim()` before `notEmpty`/`isLength`, so the single-space
message — length 1, inside the claimed accepted range, under a sessionId
of length 2 — is rejected, and the route never reaches the handler. -/
theorem c9_trimmed_length_counterexample :
    (" " : String).length = 1 ∧ ("s1" : String).length = 2 ∧
    validateMessage "s1" " " = false ∧
    submitRoute "s1" " " (fun _ _ _ => Except.ok "r") [] 0 =
      SubmitOutcome.rejected := by
  refine ⟨rfl, rfl, by decide, ?_⟩
  simp only [submitRoute]
  rw [if_neg (by decide)]

/-- C9 amended: validation accepts exactly those requests whose TRIMMED
sessionId has length 1–200 and whose TRIMMED message has length 1–5000
(lengths counted in code points, matching the validator's
surrogate-adjusted count); in particular a non-blank-padded message of
length 5000 is accepted and one of length 0 is rejected.  A rejected
request is turned away before the handler runs: the log is untouched and
no generation happens; an accepted one is passed through to the handler
unchanged. -/
theorem c9_amended_validation (sessionId message : String)
    (gen : Nat → String → List ChatMessage → Except String String)
    (db : List Turn) (now : Nat) :
    (validateMessage sessionId message = true ↔
      (1 ≤ (strTrim sessionId).length ∧ (strTrim sessionId).length ≤ 200 ∧
       1 ≤ (strTrim message).length ∧ (strTrim message).length ≤ 5000)) ∧
    (validateMessage sessionId message = false →
      submitRoute sessionId message gen db now = SubmitOutcome.rejected) ∧
    (validateMessage sessionId message = true →
      submitRoute sessionId message gen db now =
        SubmitOutcome.handled (userMessage sessionId message gen db now)) := by
  refine ⟨?_, ?_, ?_⟩
  · simp only [validateMessage, fieldChain, Bool.and_eq_true, Bool.not_eq_true',
      decide_eq_true_eq]
    constructor
    · rintro ⟨⟨-, h1, h2⟩, -, h3, h4⟩
      exact ⟨h1, h2, h3, h4⟩
    · rintro ⟨h1, h2, h3, h4⟩
      exact ⟨⟨isEmpty_false_of_length_pos _ h1, h1, h2⟩,
        isEmpty_false_of_length_pos _ h3, h3, h4⟩
  · intro hv
    simp only [submitRoute]
    rw [if_neg (by rw [hv]; exact Bool.false_ne_true)]
  · intro hv
    simp only [submitRoute]
    rw [if_pos hv]

/-- C9 amended witness: "s1"/"hello" passes validation and reaches the
handler; trimming is what the boundary is measured on. -/
theorem c9_witness :
    (validateMessage "s1" "hello" = true ↔
      (1 ≤ (strTrim "s1").length ∧ (strTrim "s1").length ≤ 200 ∧
       1 ≤ (strTrim "hello").length ∧ (strTrim "hello").length ≤ 5000)) ∧
    submitRoute "s1" "hello" (fun _ _ _ => Except.ok "r") [] 0 =
      SubmitOutcome.handled
        (userMessage "s1" "hello" (fun _ _ _ => Except.ok "r") [] 0) := by
  have h := c9_amended_validation "s1" "hello" (fun _ _ _ => Except.ok "r") [] 0
  exact ⟨h.1, h.2.2 (by decide)⟩

end ChatSupport

